import Mathlib

/-!
Shallow embedding of `testutil/integration/evmos/factory/build.go` from the
evmos repository: the integration-test transaction factory.

The file under verification contains six functions on `IntegrationTxFactory`:
`GenerateDefaultTxTypeArgs`, `EstimateGasLimit`, `GenerateSignedEthTx`,
`GenerateSignedMsgEthereumTx`, `GenerateMsgEthereumTx` and
`GenerateGethCoreMsg`.  Their collaborators (`populateEvmTxArgs`,
`SignMsgEthereumTx`, `buildSignedTx`, `ValidateBasic`, `AsMessage`, the
gRPC handler's `EstimateGas`/`GetBaseFee`, JSON marshalling and the key's
address derivation) live outside the verified file and are modelled as
abstract fields of the factory record, following the Go convention that a
call returns either a value or an error (`Except`).

Each embedded function also returns a ghost trace of the collaborator
calls it makes, in order, so that claims about call ordering, call counts
and short-circuiting can be stated and proved.
-/

/-- Ethereum addresses, modelled abstractly as naturals. -/
def Address : Type := Nat

instance : DecidableEq Address := instDecidableEqNat
instance : OfNat Address n := ⟨(n : Nat)⟩

/-- 32-byte storage keys (`common.Hash`), modelled abstractly as naturals;
`0` is the zero-valued hash. -/
def Hash : Type := Nat

instance : DecidableEq Hash := instDecidableEqNat
instance : OfNat Hash n := ⟨(n : Nat)⟩

/-- One entry of an EVM access list: an address plus its storage keys
(`gethtypes.AccessTuple`). -/
structure AccessTuple where
  address : Address
  storageKeys : List Hash
deriving DecidableEq

/-- `gethtypes.AccessList`. -/
def AccessList : Type := List AccessTuple

instance : DecidableEq AccessList := inferInstanceAs (DecidableEq (List AccessTuple))

/-- Modelled from the spec: `evmtypes.EvmTxArgs`, the semantic record
describing an unsigned transaction request (defined in `x/evm/types`,
outside the verified file).  Pointer fields are `Option`; `nonce`,
`gasLimit` and `input` are value fields whose Go zero values are `0` and
the empty byte slice.  The Go zero value `EvmTxArgs{}` is the default
record here. -/
structure EvmTxArgs where
  nonce : Nat := 0
  gasLimit : Nat := 0
  input : List Nat := []
  gasFeeCap : Option Int := none
  gasPrice : Option Int := none
  chainID : Option Int := none
  amount : Option Int := none
  gasTipCap : Option Int := none
  toAddr : Option Address := none
  accesses : Option AccessList := none
deriving DecidableEq

/-- Modelled from the spec: `evmtypes.TransactionArgs` (defined in
`x/evm/types`, outside the verified file), the JSON query format the
chain query handler expects.  All fields are nilable. -/
structure TransactionArgs where
  fromAddr : Option Address := none
  toAddr : Option Address := none
  gas : Option Nat := none
  gasPrice : Option Int := none
  maxFeePerGas : Option Int := none
  maxPriorityFeePerGas : Option Int := none
  value : Option Int := none
  nonce : Option Nat := none
  data : Option (List Nat) := none
  input : Option (List Nat) := none
  accessList : Option AccessList := none
  chainID : Option Int := none
deriving DecidableEq

/-- Errors: either a freshly created error (`errors.New`) or a wrap of a
cause with a human-readable label (`errorsmod.Wrap(err, label)`). -/
inductive Err where
  | base (msg : String) : Err
  | wrap (label : String) (cause : Err) : Err
deriving DecidableEq

/-- Private keys, modelled abstractly. -/
def PrivKey : Type := Nat

instance : DecidableEq PrivKey := instDecidableEqNat
instance : OfNat PrivKey n := ⟨(n : Nat)⟩

/-- Modelled from the spec: `evmtypes.MsgEthereumTx` — a transaction
request plus the sender address and, once signed, a signature
(`x/evm/types`, outside the verified file).  The Go zero value
`MsgEthereumTx{}` is the default record. -/
structure MsgEthereumTx where
  txArgs : EvmTxArgs := {}
  fromAddr : Address := 0
  signature : Option Nat := none
deriving DecidableEq

/-- The caller-facing signed transaction representation (`signing.Tx`),
produced by the conversion collaborator `buildSignedTx`. -/
structure SigTx where
  msg : MsgEthereumTx
deriving DecidableEq

/-- A geth `core.Message` for dry-run execution: sender, recipient, value,
gas and effective gas price, as reconstructed by the `AsMessage`
collaborator. -/
structure CoreMessage where
  msgFrom : Address
  msgTo : Option Address
  msgValue : Int
  msgGas : Nat
  msgGasPrice : Int
deriving DecidableEq

/-- The signer context bound to a chain ID
(`gethtypes.LatestSignerForChainID`, an external geth black box). -/
structure Signer where
  chainID : Int
deriving DecidableEq

/-- `gethtypes.LatestSignerForChainID`: derives the signer context from the
chain's numeric identifier. -/
def latestSignerForChainID (cid : Int) : Signer := ⟨cid⟩

/-- The serialized (JSON) form of `TransactionArgs`, as a byte string. -/
def SerializedArgs : Type := List Nat

instance : DecidableEq SerializedArgs := inferInstanceAs (DecidableEq (List Nat))

/-- The chain query handler's gas estimation response
(`evmtypes.EstimateGasResponse`): a single unsigned integer of gas
units. -/
structure EstimateGasResponse where
  gas : Nat
deriving DecidableEq

/-- The chain query handler's base fee response: the current base fee. -/
structure BaseFeeResponse where
  baseFee : Int
deriving DecidableEq

/-- Ghost trace events: one per collaborator call made by the verified
file, recording the arguments the collaborator was invoked with. -/
inductive Event where
  | populateCall (sender : Address) (args : EvmTxArgs) : Event
  | signCall (msg : MsgEthereumTx) : Event
  | validateCall (msg : MsgEthereumTx) : Event
  | convertCall (msg : MsgEthereumTx) : Event
  | marshalCall (args : TransactionArgs) : Event
  | estimateGasCall (args : SerializedArgs) (gasCap : Nat) : Event
  | getBaseFeeCall : Event
  | asMessageCall (msg : MsgEthereumTx) (signer : Signer) (baseFee : Int) : Event
deriving DecidableEq

/-- The transaction factory: the environment of abstract collaborators the
verified file calls into, each following the Go contract of returning a
value or an error.  `populateEvmTxArgs` is the shared defaulting path,
`signMsgEthereumTx` the signer, `validateBasic` / `buildSignedTx` /
`asMessage` the message methods, `estimateGas` / `getBaseFee` the gRPC
chain query handler, `jsonMarshal` the JSON encoder and `pubKeyAddr` the
key-to-address derivation; `eip155ChainID` is the network descriptor's
chain identifier. -/
structure IntegrationTxFactory where
  populateEvmTxArgs : Address → EvmTxArgs → Except Err EvmTxArgs
  signMsgEthereumTx : PrivKey → MsgEthereumTx → Except Err MsgEthereumTx
  validateBasic : MsgEthereumTx → Option Err
  buildSignedTx : MsgEthereumTx → Except Err SigTx
  asMessage : MsgEthereumTx → Signer → Int → Except Err CoreMessage
  jsonMarshal : TransactionArgs → Except Err SerializedArgs
  estimateGas : SerializedArgs → Nat → Except Err EstimateGasResponse
  getBaseFee : Except Err BaseFeeResponse
  eip155ChainID : Int
  pubKeyAddr : PrivKey → Address

/-- `gethtypes.LegacyTxType` (Go int `0x00`). -/
def LegacyTxType : Int := 0

/-- `gethtypes.AccessListTxType` (Go int `0x01`). -/
def AccessListTxType : Int := 1

/-- `gethtypes.DynamicFeeTxType` (Go int `0x02`). -/
def DynamicFeeTxType : Int := 2

/-- Modelled from the spec: `config.DefaultGasCap`, the configured fixed
upper gas cap passed to gas estimation (defined in `server/config`,
outside the verified file). -/
def DefaultGasCap : Nat := 25000000

/-- Modelled from the spec: `buildMsgEthereumTx(txArgs, fromAddr)`
(defined in `factory.go`, outside the verified file) constructs the
unsigned transaction envelope from the populated arguments and the sender
address. -/
def buildMsgEthereumTx (txArgs : EvmTxArgs) (fromAddr : Address) : MsgEthereumTx :=
  { txArgs := txArgs, fromAddr := fromAddr, signature := none }

/-- `GenerateDefaultTxTypeArgs(sender, txType)`: starts from the freshly
created zero record `EvmTxArgs{}`, applies the per-type literal defaults,
and hands the result to the shared defaulting path `populateEvmTxArgs`;
an unrecognized type fails immediately with `errors.New`.  Returns the Go
result pair plus the ghost call trace. -/
def GenerateDefaultTxTypeArgs (tf : IntegrationTxFactory) (sender : Address)
    (txType : Int) : EvmTxArgs × Option Err × List Event :=
  let defaultArgs : EvmTxArgs := {}
  if txType = DynamicFeeTxType then
    match tf.populateEvmTxArgs sender defaultArgs with
    | .ok r => (r, none, [Event.populateCall sender defaultArgs])
    | .error e => ({}, some e, [Event.populateCall sender defaultArgs])
  else if txType = AccessListTxType then
    let args : EvmTxArgs :=
      { defaultArgs with
        accesses := some [{ address := sender, storageKeys := [0] }],
        gasPrice := some 1000000000 }
    match tf.populateEvmTxArgs sender args with
    | .ok r => (r, none, [Event.populateCall sender args])
    | .error e => ({}, some e, [Event.populateCall sender args])
  else if txType = LegacyTxType then
    let args : EvmTxArgs := { defaultArgs with gasPrice := some 1000000000 }
    match tf.populateEvmTxArgs sender args with
    | .ok r => (r, none, [Event.populateCall sender args])
    | .error e => ({}, some e, [Event.populateCall sender args])
  else
    ({}, some (Err.base "tx type not supported"), [])

/-- `EstimateGasLimit(from, txArgs)`: marshals the relevant field subset
into `TransactionArgs`, then asks the chain query handler to estimate gas
under the configured cap.  Returns the Go result pair plus the ghost call
trace. -/
def EstimateGasLimit (tf : IntegrationTxFactory) (fromAddr : Option Address)
    (txArgs : EvmTxArgs) : Nat × Option Err × List Event :=
  let ta : TransactionArgs :=
    { data := some txArgs.input
      fromAddr := fromAddr
      toAddr := txArgs.toAddr
      accessList := txArgs.accesses }
  match tf.jsonMarshal ta with
  | .error e =>
      (0, some (Err.wrap "failed to marshal tx args" e), [Event.marshalCall ta])
  | .ok args =>
      match tf.estimateGas args DefaultGasCap with
      | .error e =>
          (0, some (Err.wrap "failed to estimate gas" e),
            [Event.marshalCall ta, Event.estimateGasCall args DefaultGasCap])
      | .ok res =>
          (res.gas, none,
            [Event.marshalCall ta, Event.estimateGasCall args DefaultGasCap])

/-- `GenerateMsgEthereumTx(privKey, txArgs)`: derives the sender address
from the key, fills the arguments with default values through the shared
defaulting path, and builds the unsigned `MsgEthereumTx`; on failure it
returns the zero record `MsgEthereumTx{}`. -/
def GenerateMsgEthereumTx (tf : IntegrationTxFactory) (privKey : PrivKey)
    (txArgs : EvmTxArgs) : MsgEthereumTx × Option Err × List Event :=
  let fromAddr := tf.pubKeyAddr privKey
  match tf.populateEvmTxArgs fromAddr txArgs with
  | .error e =>
      ({}, some (Err.wrap "failed to populate tx args" e),
        [Event.populateCall fromAddr txArgs])
  | .ok args =>
      (buildMsgEthereumTx args fromAddr, none,
        [Event.populateCall fromAddr txArgs])

/-- `GenerateSignedMsgEthereumTx(privKey, txArgs)`: builds the message and
signs it with the provided private key; on failure the signed-message
value is the zero record. -/
def GenerateSignedMsgEthereumTx (tf : IntegrationTxFactory) (privKey : PrivKey)
    (txArgs : EvmTxArgs) : MsgEthereumTx × Option Err × List Event :=
  match GenerateMsgEthereumTx tf privKey txArgs with
  | (_, some e, tr) =>
      ({}, some (Err.wrap "failed to create ethereum tx" e), tr)
  | (msg, none, tr) =>
      match tf.signMsgEthereumTx privKey msg with
      | .error e => ({}, some e, tr ++ [Event.signCall msg])
      | .ok m => (m, none, tr ++ [Event.signCall msg])

/-- `GenerateSignedEthTx(privKey, txArgs)`: generates the signed message,
validates it with `ValidateBasic`, and converts it to the caller-facing
`signing.Tx` through `buildSignedTx`. -/
def GenerateSignedEthTx (tf : IntegrationTxFactory) (privKey : PrivKey)
    (txArgs : EvmTxArgs) : Option SigTx × Option Err × List Event :=
  match GenerateSignedMsgEthereumTx tf privKey txArgs with
  | (_, some e, tr) =>
      (none, some (Err.wrap "failed to generate signed MsgEthereumTx" e), tr)
  | (signedMsg, none, tr) =>
      match tf.validateBasic signedMsg with
      | some e =>
          (none, some (Err.wrap "failed to validate transaction" e),
            tr ++ [Event.validateCall signedMsg])
      | none =>
          match tf.buildSignedTx signedMsg with
          | .error e =>
              (none, some e,
                tr ++ [Event.validateCall signedMsg, Event.convertCall signedMsg])
          | .ok tx =>
              (some tx, none,
                tr ++ [Event.validateCall signedMsg, Event.convertCall signedMsg])

/-- `GenerateGethCoreMsg(privKey, txArgs)`: generates and signs the
message, queries the current base fee, derives the signer context from
the network's EIP-155 chain ID, and converts the signed message into a
geth `core.Message` via `AsMessage`. -/
def GenerateGethCoreMsg (tf : IntegrationTxFactory) (privKey : PrivKey)
    (txArgs : EvmTxArgs) : Option CoreMessage × Option Err × List Event :=
  match GenerateMsgEthereumTx tf privKey txArgs with
  | (_, some e, tr) =>
      (none, some (Err.wrap "failed to generate ethereum tx" e), tr)
  | (msg, none, tr) =>
      match tf.signMsgEthereumTx privKey msg with
      | .error e =>
          (none, some (Err.wrap "failed to sign ethereum tx" e),
            tr ++ [Event.signCall msg])
      | .ok signedMsg =>
          match tf.getBaseFee with
          | .error e =>
              (none, some (Err.wrap "failed to get base fee" e),
                tr ++ [Event.signCall msg, Event.getBaseFeeCall])
          | .ok resp =>
              let signer := latestSignerForChainID tf.eip155ChainID
              match tf.asMessage signedMsg signer resp.baseFee with
              | .error e =>
                  (none, some e,
                    tr ++ [Event.signCall msg, Event.getBaseFeeCall,
                      Event.asMessageCall signedMsg signer resp.baseFee])
              | .ok m =>
                  (some m, none,
                    tr ++ [Event.signCall msg, Event.getBaseFeeCall,
                      Event.asMessageCall signedMsg signer resp.baseFee])

/-- The transaction-request records handed to the shared defaulting path
`populateEvmTxArgs`, read off a ghost call trace in order. -/
def populateArgsOf (tr : List Event) : List EvmTxArgs :=
  tr.filterMap fun e =>
    match e with
    | .populateCall _ a => some a
    | _ => none

/-- The serialized-arguments/gas-cap pairs handed to the chain query
handler's gas estimation, read off a ghost call trace in order. -/
def estimateCallsOf (tr : List Event) : List (SerializedArgs × Nat) :=
  tr.filterMap fun e =>
    match e with
    | .estimateGasCall a c => some (a, c)
    | _ => none

/-- A concrete factory whose collaborators all succeed, used to evaluate
the embedding on closed inputs. -/
def okFactory : IntegrationTxFactory where
  populateEvmTxArgs := fun _ a => .ok a
  signMsgEthereumTx := fun _ m => .ok { m with signature := some 1 }
  validateBasic := fun _ => none
  buildSignedTx := fun m => .ok ⟨m⟩
  asMessage := fun m _ bf => .ok ⟨m.fromAddr, m.txArgs.toAddr, 0, m.txArgs.gasLimit, bf⟩
  jsonMarshal := fun _ => .ok [7]
  estimateGas := fun _ _ => .ok ⟨21000⟩
  getBaseFee := .ok ⟨5⟩
  eip155ChainID := 9001
  pubKeyAddr := fun k => k

/-- `okFactory` with a failing shared defaulting path. -/
def populateFailFactory : IntegrationTxFactory :=
  { okFactory with populateEvmTxArgs := fun _ _ => .error (Err.base "nonce query failed") }

/-- `okFactory` with a failing signer. -/
def signFailFactory : IntegrationTxFactory :=
  { okFactory with signMsgEthereumTx := fun _ _ => .error (Err.base "signing failed") }

/-- `okFactory` whose validation rejects every message. -/
def validateFailFactory : IntegrationTxFactory :=
  { okFactory with validateBasic := fun _ => some (Err.base "invalid msg") }

/-- `okFactory` with a failing conversion to the caller-facing tx. -/
def convertFailFactory : IntegrationTxFactory :=
  { okFactory with buildSignedTx := fun _ => .error (Err.base "encode failed") }

/-- `okFactory` with failing JSON serialization. -/
def marshalFailFactory : IntegrationTxFactory :=
  { okFactory with jsonMarshal := fun _ => .error (Err.base "marshal failed") }

/-- `okFactory` whose chain query handler fails gas estimation. -/
def estimateFailFactory : IntegrationTxFactory :=
  { okFactory with estimateGas := fun _ _ => .error (Err.base "execution reverted") }

/-- `okFactory` whose chain query handler fails the base fee query. -/
def baseFeeFailFactory : IntegrationTxFactory :=
  { okFactory with getBaseFee := .error (Err.base "base fee query failed") }

/-- `okFactory` with a failing conversion to a geth core message. -/
def asMessageFailFactory : IntegrationTxFactory :=
  { okFactory with asMessage := fun _ _ _ => .error (Err.base "as message failed") }

lemma generateDefault_dynamic_eq (tf : IntegrationTxFactory) (sender : Address) :
    GenerateDefaultTxTypeArgs tf sender DynamicFeeTxType =
      (match tf.populateEvmTxArgs sender {} with
        | .ok r => (r, none, [Event.populateCall sender {}])
        | .error e => ({}, some e, [Event.populateCall sender {}])) := rfl

lemma generateDefault_accessList_eq (tf : IntegrationTxFactory) (sender : Address) :
    GenerateDefaultTxTypeArgs tf sender AccessListTxType =
      (match tf.populateEvmTxArgs sender
          { gasPrice := some 1000000000,
            accesses := some [{ address := sender, storageKeys := [0] }] } with
        | .ok r =>
            (r, none,
              [Event.populateCall sender
                { gasPrice := some 1000000000,
                  accesses := some [{ address := sender, storageKeys := [0] }] }])
        | .error e =>
            ({}, some e,
              [Event.populateCall sender
                { gasPrice := some 1000000000,
                  accesses := some [{ address := sender, storageKeys := [0] }] }])) := rfl

lemma generateDefault_legacy_eq (tf : IntegrationTxFactory) (sender : Address) :
    GenerateDefaultTxTypeArgs tf sender LegacyTxType =
      (match tf.populateEvmTxArgs sender { gasPrice := some 1000000000 } with
        | .ok r => (r, none, [Event.populateCall sender { gasPrice := some 1000000000 }])
        | .error e =>
            ({}, some e, [Event.populateCall sender { gasPrice := some 1000000000 }])) := rfl

lemma generateDefault_dynamic_trace (tf : IntegrationTxFactory) (sender : Address) :
    (GenerateDefaultTxTypeArgs tf sender DynamicFeeTxType).2.2 =
      [Event.populateCall sender {}] := by
  rw [generateDefault_dynamic_eq]
  cases tf.populateEvmTxArgs sender {} <;> rfl

lemma generateDefault_accessList_trace (tf : IntegrationTxFactory) (sender : Address) :
    (GenerateDefaultTxTypeArgs tf sender AccessListTxType).2.2 =
      [Event.populateCall sender
        { gasPrice := some 1000000000,
          accesses := some [{ address := sender, storageKeys := [0] }] }] := by
  rw [generateDefault_accessList_eq]
  cases tf.populateEvmTxArgs sender
      { gasPrice := some 1000000000,
        accesses := some [{ address := sender, storageKeys := [0] }] } <;> rfl

lemma generateDefault_legacy_trace (tf : IntegrationTxFactory) (sender : Address) :
    (GenerateDefaultTxTypeArgs tf sender LegacyTxType).2.2 =
      [Event.populateCall sender { gasPrice := some 1000000000 }] := by
  rw [generateDefault_legacy_eq]
  cases tf.populateEvmTxArgs sender { gasPrice := some 1000000000 } <;> rfl

/-- C1: for every factory and sender, the Legacy and AccessList branches of
`GenerateDefaultTxTypeArgs` hand the shared defaulting path a record whose
gas price is exactly 1e9 wei, while the DynamicFee branch hands it a record
with gas price, max fee (`gasFeeCap`) and priority fee (`gasTipCap`) all
empty — no literal fee default is set. -/
theorem generateDefaultTxTypeArgs_fee_defaults (tf : IntegrationTxFactory)
    (sender : Address) :
    (populateArgsOf (GenerateDefaultTxTypeArgs tf sender LegacyTxType).2.2).map
        EvmTxArgs.gasPrice = [some 1000000000] ∧
    (populateArgsOf (GenerateDefaultTxTypeArgs tf sender AccessListTxType).2.2).map
        EvmTxArgs.gasPrice = [some 1000000000] ∧
    (populateArgsOf (GenerateDefaultTxTypeArgs tf sender DynamicFeeTxType).2.2).map
        EvmTxArgs.gasPrice = [none] ∧
    (populateArgsOf (GenerateDefaultTxTypeArgs tf sender DynamicFeeTxType).2.2).map
        EvmTxArgs.gasFeeCap = [none] ∧
    (populateArgsOf (GenerateDefaultTxTypeArgs tf sender DynamicFeeTxType).2.2).map
        EvmTxArgs.gasTipCap = [none] := by
  rw [generateDefault_legacy_trace, generateDefault_accessList_trace,
    generateDefault_dynamic_trace]
  refine ⟨rfl, rfl, rfl, rfl, rfl⟩

/-- C2: for every factory and sender, the AccessList branch of
`GenerateDefaultTxTypeArgs` hands the shared defaulting path an access
list with exactly one entry, whose address is the sender and whose
storage-key list is exactly one zero-valued key. -/
theorem generateDefaultTxTypeArgs_accessList_default (tf : IntegrationTxFactory)
    (sender : Address) :
    (populateArgsOf (GenerateDefaultTxTypeArgs tf sender AccessListTxType).2.2).map
        EvmTxArgs.accesses =
      [some [{ address := sender, storageKeys := [0] }]] := by
  rw [generateDefault_accessList_trace]
  rfl

/-- C3: for every factory, sender and tx-type outside
{Legacy, AccessList, DynamicFee}, `GenerateDefaultTxTypeArgs` returns the
zero-value argument record together with the `tx type not supported`
error, and its call trace is empty: no collaborator is invoked. -/
theorem generateDefaultTxTypeArgs_unsupported (tf : IntegrationTxFactory)
    (sender : Address) (txType : Int)
    (h : txType ∉ ([LegacyTxType, AccessListTxType, DynamicFeeTxType] : List Int)) :
    GenerateDefaultTxTypeArgs tf sender txType =
      ({}, some (Err.base "tx type not supported"), []) := by
  simp only [List.mem_cons, List.not_mem_nil, or_false, not_or] at h
  obtain ⟨h0, h1, h2⟩ := h
  unfold GenerateDefaultTxTypeArgs
  rw [if_neg h2, if_neg h1, if_neg h0]

/-- Witness for C3: the unsupported tx-type `3` (the blob type) on a
concrete factory. -/
theorem generateDefaultTxTypeArgs_unsupported_witness :
    GenerateDefaultTxTypeArgs okFactory 3 3 =
      ({}, some (Err.base "tx type not supported"), []) :=
  generateDefaultTxTypeArgs_unsupported okFactory 3 3 (by decide)

/-- C10: `GenerateDefaultTxTypeArgs` takes no caller-supplied argument
record: for every factory and sender the record handed to the shared
defaulting path is exactly the fresh zero record plus the branch's own
literal defaults — every other field is the zero value, so no caller-set
field can exist on this path. -/
theorem generateDefaultTxTypeArgs_fresh_args (tf : IntegrationTxFactory)
    (sender : Address) :
    populateArgsOf (GenerateDefaultTxTypeArgs tf sender LegacyTxType).2.2 =
      [{ ({} : EvmTxArgs) with gasPrice := some 1000000000 }] ∧
    populateArgsOf (GenerateDefaultTxTypeArgs tf sender AccessListTxType).2.2 =
      [{ ({} : EvmTxArgs) with
          gasPrice := some 1000000000,
          accesses := some [{ address := sender, storageKeys := [0] }] }] ∧
    populateArgsOf (GenerateDefaultTxTypeArgs tf sender DynamicFeeTxType).2.2 =
      [({} : EvmTxArgs)] := by
  rw [generateDefault_legacy_trace, generateDefault_accessList_trace,
    generateDefault_dynamic_trace]
  refine ⟨rfl, rfl, rfl⟩

lemma genMsg_populate_error (tf : IntegrationTxFactory) (pk : PrivKey)
    (a : EvmTxArgs) (e : Err)
    (h : tf.populateEvmTxArgs (tf.pubKeyAddr pk) a = .error e) :
    GenerateMsgEthereumTx tf pk a =
      ({}, some (Err.wrap "failed to populate tx args" e),
        [Event.populateCall (tf.pubKeyAddr pk) a]) := by
  simp [GenerateMsgEthereumTx, h]

lemma genMsg_populate_ok (tf : IntegrationTxFactory) (pk : PrivKey)
    (a args : EvmTxArgs)
    (h : tf.populateEvmTxArgs (tf.pubKeyAddr pk) a = .ok args) :
    GenerateMsgEthereumTx tf pk a =
      (buildMsgEthereumTx args (tf.pubKeyAddr pk), none,
        [Event.populateCall (tf.pubKeyAddr pk) a]) := by
  simp [GenerateMsgEthereumTx, h]

lemma genSignedMsg_populate_error (tf : IntegrationTxFactory) (pk : PrivKey)
    (a : EvmTxArgs) (e : Err)
    (h : tf.populateEvmTxArgs (tf.pubKeyAddr pk) a = .error e) :
    GenerateSignedMsgEthereumTx tf pk a =
      ({}, some (Err.wrap "failed to create ethereum tx"
          (Err.wrap "failed to populate tx args" e)),
        [Event.populateCall (tf.pubKeyAddr pk) a]) := by
  simp [GenerateSignedMsgEthereumTx, genMsg_populate_error tf pk a e h]

lemma genSignedMsg_sign_error (tf : IntegrationTxFactory) (pk : PrivKey)
    (a args : EvmTxArgs) (e : Err)
    (hp : tf.populateEvmTxArgs (tf.pubKeyAddr pk) a = .ok args)
    (hs : tf.signMsgEthereumTx pk (buildMsgEthereumTx args (tf.pubKeyAddr pk)) =
      .error e) :
    GenerateSignedMsgEthereumTx tf pk a =
      ({}, some e,
        [Event.populateCall (tf.pubKeyAddr pk) a,
          Event.signCall (buildMsgEthereumTx args (tf.pubKeyAddr pk))]) := by
  simp [GenerateSignedMsgEthereumTx, genMsg_populate_ok tf pk a args hp, hs]

lemma genSignedMsg_sign_ok (tf : IntegrationTxFactory) (pk : PrivKey)
    (a args : EvmTxArgs) (m : MsgEthereumTx)
    (hp : tf.populateEvmTxArgs (tf.pubKeyAddr pk) a = .ok args)
    (hs : tf.signMsgEthereumTx pk (buildMsgEthereumTx args (tf.pubKeyAddr pk)) =
      .ok m) :
    GenerateSignedMsgEthereumTx tf pk a =
      (m, none,
        [Event.populateCall (tf.pubKeyAddr pk) a,
          Event.signCall (buildMsgEthereumTx args (tf.pubKeyAddr pk))]) := by
  simp [GenerateSignedMsgEthereumTx, genMsg_populate_ok tf pk a args hp, hs]

lemma signedEthTx_populate_error (tf : IntegrationTxFactory) (pk : PrivKey)
    (a : EvmTxArgs) (e : Err)
    (h : tf.populateEvmTxArgs (tf.pubKeyAddr pk) a = .error e) :
    GenerateSignedEthTx tf pk a =
      (none, some (Err.wrap "failed to generate signed MsgEthereumTx"
          (Err.wrap "failed to create ethereum tx"
            (Err.wrap "failed to populate tx args" e))),
        [Event.populateCall (tf.pubKeyAddr pk) a]) := by
  simp [GenerateSignedEthTx, genSignedMsg_populate_error tf pk a e h]

lemma signedEthTx_sign_error (tf : IntegrationTxFactory) (pk : PrivKey)
    (a args : EvmTxArgs) (e : Err)
    (hp : tf.populateEvmTxArgs (tf.pubKeyAddr pk) a = .ok args)
    (hs : tf.signMsgEthereumTx pk (buildMsgEthereumTx args (tf.pubKeyAddr pk)) =
      .error e) :
    GenerateSignedEthTx tf pk a =
      (none, some (Err.wrap "failed to generate signed MsgEthereumTx" e),
        [Event.populateCall (tf.pubKeyAddr pk) a,
          Event.signCall (buildMsgEthereumTx args (tf.pubKeyAddr pk))]) := by
  simp [GenerateSignedEthTx, genSignedMsg_sign_error tf pk a args e hp hs]

lemma signedEthTx_validate_error (tf : IntegrationTxFactory) (pk : PrivKey)
    (a args : EvmTxArgs) (m : MsgEthereumTx) (e : Err)
    (hp : tf.populateEvmTxArgs (tf.pubKeyAddr pk) a = .ok args)
    (hs : tf.signMsgEthereumTx pk (buildMsgEthereumTx args (tf.pubKeyAddr pk)) =
      .ok m)
    (hv : tf.validateBasic m = some e) :
    GenerateSignedEthTx tf pk a =
      (none, some (Err.wrap "failed to validate transaction" e),
        [Event.populateCall (tf.pubKeyAddr pk) a,
          Event.signCall (buildMsgEthereumTx args (tf.pubKeyAddr pk)),
          Event.validateCall m]) := by
  simp [GenerateSignedEthTx, genSignedMsg_sign_ok tf pk a args m hp hs, hv]

lemma signedEthTx_convert_error (tf : IntegrationTxFactory) (pk : PrivKey)
    (a args : EvmTxArgs) (m : MsgEthereumTx) (e : Err)
    (hp : tf.populateEvmTxArgs (tf.pubKeyAddr pk) a = .ok args)
    (hs : tf.signMsgEthereumTx pk (buildMsgEthereumTx args (tf.pubKeyAddr pk)) =
      .ok m)
    (hv : tf.validateBasic m = none)
    (hc : tf.buildSignedTx m = .error e) :
    GenerateSignedEthTx tf pk a =
      (none, some e,
        [Event.populateCall (tf.pubKeyAddr pk) a,
          Event.signCall (buildMsgEthereumTx args (tf.pubKeyAddr pk)),
          Event.validateCall m, Event.convertCall m]) := by
  simp [GenerateSignedEthTx, genSignedMsg_sign_ok tf pk a args m hp hs, hv, hc]

lemma signedEthTx_success (tf : IntegrationTxFactory) (pk : PrivKey)
    (a args : EvmTxArgs) (m : MsgEthereumTx) (tx : SigTx)
    (hp : tf.populateEvmTxArgs (tf.pubKeyAddr pk) a = .ok args)
    (hs : tf.signMsgEthereumTx pk (buildMsgEthereumTx args (tf.pubKeyAddr pk)) =
      .ok m)
    (hv : tf.validateBasic m = none)
    (hc : tf.buildSignedTx m = .ok tx) :
    GenerateSignedEthTx tf pk a =
      (some tx, none,
        [Event.populateCall (tf.pubKeyAddr pk) a,
          Event.signCall (buildMsgEthereumTx args (tf.pubKeyAddr pk)),
          Event.validateCall m, Event.convertCall m]) := by
  simp [GenerateSignedEthTx, genSignedMsg_sign_ok tf pk a args m hp hs, hv, hc]

lemma coreMsg_populate_error (tf : IntegrationTxFactory) (pk : PrivKey)
    (a : EvmTxArgs) (e : Err)
    (h : tf.populateEvmTxArgs (tf.pubKeyAddr pk) a = .error e) :
    GenerateGethCoreMsg tf pk a =
      (none, some (Err.wrap "failed to generate ethereum tx"
          (Err.wrap "failed to populate tx args" e)),
        [Event.populateCall (tf.pubKeyAddr pk) a]) := by
  simp [GenerateGethCoreMsg, genMsg_populate_error tf pk a e h]

lemma coreMsg_sign_error (tf : IntegrationTxFactory) (pk : PrivKey)
    (a args : EvmTxArgs) (e : Err)
    (hp : tf.populateEvmTxArgs (tf.pubKeyAddr pk) a = .ok args)
    (hs : tf.signMsgEthereumTx pk (buildMsgEthereumTx args (tf.pubKeyAddr pk)) =
      .error e) :
    GenerateGethCoreMsg tf pk a =
      (none, some (Err.wrap "failed to sign ethereum tx" e),
        [Event.populateCall (tf.pubKeyAddr pk) a,
          Event.signCall (buildMsgEthereumTx args (tf.pubKeyAddr pk))]) := by
  simp [GenerateGethCoreMsg, genMsg_populate_ok tf pk a args hp, hs]

lemma coreMsg_baseFee_error (tf : IntegrationTxFactory) (pk : PrivKey)
    (a args : EvmTxArgs) (m : MsgEthereumTx) (e : Err)
    (hp : tf.populateEvmTxArgs (tf.pubKeyAddr pk) a = .ok args)
    (hs : tf.signMsgEthereumTx pk (buildMsgEthereumTx args (tf.pubKeyAddr pk)) =
      .ok m)
    (hb : tf.getBaseFee = .error e) :
    GenerateGethCoreMsg tf pk a =
      (none, some (Err.wrap "failed to get base fee" e),
        [Event.populateCall (tf.pubKeyAddr pk) a,
          Event.signCall (buildMsgEthereumTx args (tf.pubKeyAddr pk)),
          Event.getBaseFeeCall]) := by
  simp [GenerateGethCoreMsg, genMsg_populate_ok tf pk a args hp, hs, hb]

lemma coreMsg_asMessage_error (tf : IntegrationTxFactory) (pk : PrivKey)
    (a args : EvmTxArgs) (m : MsgEthereumTx) (resp : BaseFeeResponse) (e : Err)
    (hp : tf.populateEvmTxArgs (tf.pubKeyAddr pk) a = .ok args)
    (hs : tf.signMsgEthereumTx pk (buildMsgEthereumTx args (tf.pubKeyAddr pk)) =
      .ok m)
    (hb : tf.getBaseFee = .ok resp)
    (ha : tf.asMessage m (latestSignerForChainID tf.eip155ChainID) resp.baseFee =
      .error e) :
    GenerateGethCoreMsg tf pk a =
      (none, some e,
        [Event.populateCall (tf.pubKeyAddr pk) a,
          Event.signCall (buildMsgEthereumTx args (tf.pubKeyAddr pk)),
          Event.getBaseFeeCall,
          Event.asMessageCall m (latestSignerForChainID tf.eip155ChainID)
            resp.baseFee]) := by
  simp [GenerateGethCoreMsg, genMsg_populate_ok tf pk a args hp, hs, hb, ha]

lemma coreMsg_success (tf : IntegrationTxFactory) (pk : PrivKey)
    (a args : EvmTxArgs) (m : MsgEthereumTx) (resp : BaseFeeResponse)
    (cm : CoreMessage)
    (hp : tf.populateEvmTxArgs (tf.pubKeyAddr pk) a = .ok args)
    (hs : tf.signMsgEthereumTx pk (buildMsgEthereumTx args (tf.pubKeyAddr pk)) =
      .ok m)
    (hb : tf.getBaseFee = .ok resp)
    (ha : tf.asMessage m (latestSignerForChainID tf.eip155ChainID) resp.baseFee =
      .ok cm) :
    GenerateGethCoreMsg tf pk a =
      (some cm, none,
        [Event.populateCall (tf.pubKeyAddr pk) a,
          Event.signCall (buildMsgEthereumTx args (tf.pubKeyAddr pk)),
          Event.getBaseFeeCall,
          Event.asMessageCall m (latestSignerForChainID tf.eip155ChainID)
            resp.baseFee]) := by
  simp [GenerateGethCoreMsg, genMsg_populate_ok tf pk a args hp, hs, hb, ha]

/-- Pipeline stage index of an event in `GenerateSignedEthTx`: defaulting,
signing, validation, conversion. -/
def signedTxStage : Event → Option Nat
  | .populateCall _ _ => some 0
  | .signCall _ => some 1
  | .validateCall _ => some 2
  | .convertCall _ => some 3
  | _ => none

/-- Pipeline stage index of an event in `GenerateGethCoreMsg`: defaulting,
signing, base-fee query, conversion. -/
def coreMsgStage : Event → Option Nat
  | .populateCall _ _ => some 0
  | .signCall _ => some 1
  | .getBaseFeeCall => some 2
  | .asMessageCall _ _ _ => some 3
  | _ => none

/-- Recognizes a validation event. -/
def isValidateCall : Event → Bool
  | .validateCall _ => true
  | _ => false

/-- Recognizes a conversion event of `GenerateSignedEthTx`. -/
def isConvertCall : Event → Bool
  | .convertCall _ => true
  | _ => false

/-- Recognizes a conversion event of `GenerateGethCoreMsg`. -/
def isAsMessageCall : Event → Bool
  | .asMessageCall _ _ _ => true
  | _ => false

/-- C4 counterexample: on a concrete factory whose collaborators all
succeed, `GenerateGethCoreMsg` completes a conversion (exactly one
`AsMessage` call) while performing no validation call at all, so the
claimed "validation completes before any conversion" fails for this entry
point. -/
theorem pipeline_no_validation_in_coreMsg :
    (GenerateGethCoreMsg okFactory 0 {}).2.1 = none ∧
    (GenerateGethCoreMsg okFactory 0 {}).2.2.countP isAsMessageCall = 1 ∧
    (GenerateGethCoreMsg okFactory 0 {}).2.2.countP isValidateCall = 0 := by
  decide

/-- C4 amended: the stages of `GenerateSignedEthTx` occur in the strict
order defaulting, signing, validation, conversion, and those of
`GenerateGethCoreMsg` in the strict order defaulting, signing, base-fee
query, conversion — the latter has no validation stage.  A successful run
performs all four stages; a stage's failure short-circuits every later
stage.  Defaulting and signing failures (and the base-fee query failure)
are returned wrapped with a label naming the failed step, a validation
failure is wrapped as `failed to validate transaction`, and a failure of
the final conversion stage is returned as the conversion collaborator's
own error. -/
theorem pipeline_stage_order (tf : IntegrationTxFactory) (pk : PrivKey)
    (a : EvmTxArgs) :
    List.Pairwise (· < ·)
      ((GenerateSignedEthTx tf pk a).2.2.filterMap signedTxStage) ∧
    List.Pairwise (· < ·)
      ((GenerateGethCoreMsg tf pk a).2.2.filterMap coreMsgStage) ∧
    ((GenerateSignedEthTx tf pk a).2.1 = none →
      (GenerateSignedEthTx tf pk a).2.2.filterMap signedTxStage = [0, 1, 2, 3]) ∧
    ((GenerateGethCoreMsg tf pk a).2.1 = none →
      (GenerateGethCoreMsg tf pk a).2.2.filterMap coreMsgStage = [0, 1, 2, 3]) ∧
    (∀ e, tf.populateEvmTxArgs (tf.pubKeyAddr pk) a = .error e →
      (GenerateSignedEthTx tf pk a).2.2.filterMap signedTxStage = [0] ∧
      (GenerateSignedEthTx tf pk a).2.1 =
        some (Err.wrap "failed to generate signed MsgEthereumTx"
          (Err.wrap "failed to create ethereum tx"
            (Err.wrap "failed to populate tx args" e))) ∧
      (GenerateGethCoreMsg tf pk a).2.2.filterMap coreMsgStage = [0] ∧
      (GenerateGethCoreMsg tf pk a).2.1 =
        some (Err.wrap "failed to generate ethereum tx"
          (Err.wrap "failed to populate tx args" e))) ∧
    (∀ args, tf.populateEvmTxArgs (tf.pubKeyAddr pk) a = .ok args →
      ∀ e, tf.signMsgEthereumTx pk (buildMsgEthereumTx args (tf.pubKeyAddr pk)) =
          .error e →
      (GenerateSignedEthTx tf pk a).2.2.filterMap signedTxStage = [0, 1] ∧
      (GenerateSignedEthTx tf pk a).2.1 =
        some (Err.wrap "failed to generate signed MsgEthereumTx" e) ∧
      (GenerateGethCoreMsg tf pk a).2.2.filterMap coreMsgStage = [0, 1] ∧
      (GenerateGethCoreMsg tf pk a).2.1 =
        some (Err.wrap "failed to sign ethereum tx" e)) ∧
    (∀ args, tf.populateEvmTxArgs (tf.pubKeyAddr pk) a = .ok args →
      ∀ m, tf.signMsgEthereumTx pk (buildMsgEthereumTx args (tf.pubKeyAddr pk)) =
          .ok m →
      ∀ e, tf.validateBasic m = some e →
      (GenerateSignedEthTx tf pk a).2.2.filterMap signedTxStage = [0, 1, 2] ∧
      (GenerateSignedEthTx tf pk a).2.1 =
        some (Err.wrap "failed to validate transaction" e)) ∧
    (∀ args, tf.populateEvmTxArgs (tf.pubKeyAddr pk) a = .ok args →
      ∀ m, tf.signMsgEthereumTx pk (buildMsgEthereumTx args (tf.pubKeyAddr pk)) =
          .ok m →
      tf.validateBasic m = none →
      ∀ e, tf.buildSignedTx m = .error e →
      (GenerateSignedEthTx tf pk a).2.2.filterMap signedTxStage = [0, 1, 2, 3] ∧
      (GenerateSignedEthTx tf pk a).2.1 = some e ∧
      (GenerateSignedEthTx tf pk a).1 = none) ∧
    (∀ args, tf.populateEvmTxArgs (tf.pubKeyAddr pk) a = .ok args →
      ∀ m, tf.signMsgEthereumTx pk (buildMsgEthereumTx args (tf.pubKeyAddr pk)) =
          .ok m →
      ∀ e, tf.getBaseFee = .error e →
      (GenerateGethCoreMsg tf pk a).2.2.filterMap coreMsgStage = [0, 1, 2] ∧
      (GenerateGethCoreMsg tf pk a).2.1 =
        some (Err.wrap "failed to get base fee" e)) ∧
    (∀ args, tf.populateEvmTxArgs (tf.pubKeyAddr pk) a = .ok args →
      ∀ m, tf.signMsgEthereumTx pk (buildMsgEthereumTx args (tf.pubKeyAddr pk)) =
          .ok m →
      ∀ resp, tf.getBaseFee = .ok resp →
      ∀ e, tf.asMessage m (latestSignerForChainID tf.eip155ChainID) resp.baseFee =
          .error e →
      (GenerateGethCoreMsg tf pk a).2.2.filterMap coreMsgStage = [0, 1, 2, 3] ∧
      (GenerateGethCoreMsg tf pk a).2.1 = some e ∧
      (GenerateGethCoreMsg tf pk a).1 = none) := by
  cases hp : tf.populateEvmTxArgs (tf.pubKeyAddr pk) a with
  | error e =>
      rw [signedEthTx_populate_error tf pk a e hp, coreMsg_populate_error tf pk a e hp]
      simp [signedTxStage, coreMsgStage, hp]
  | ok args =>
    cases hs : tf.signMsgEthereumTx pk (buildMsgEthereumTx args (tf.pubKeyAddr pk)) with
    | error e =>
        rw [signedEthTx_sign_error tf pk a args e hp hs,
          coreMsg_sign_error tf pk a args e hp hs]
        simp [signedTxStage, coreMsgStage, hp, hs]
    | ok m =>
      cases hv : tf.validateBasic m with
      | some e =>
        have h1 := signedEthTx_validate_error tf pk a args m e hp hs hv
        cases hb : tf.getBaseFee with
        | error eb =>
            rw [h1, coreMsg_baseFee_error tf pk a args m eb hp hs hb]
            simp [signedTxStage, coreMsgStage, hp, hs, hv, hb]
        | ok resp =>
          cases ha : tf.asMessage m (latestSignerForChainID tf.eip155ChainID)
              resp.baseFee with
          | error ea =>
              rw [h1, coreMsg_asMessage_error tf pk a args m resp ea hp hs hb ha]
              simp [signedTxStage, coreMsgStage, hp, hs, hv, hb, ha]
          | ok cm =>
              rw [h1, coreMsg_success tf pk a args m resp cm hp hs hb ha]
              simp [signedTxStage, coreMsgStage, hp, hs, hv, hb, ha]
      | none =>
        cases hc : tf.buildSignedTx m with
        | error ec =>
          have h1 := signedEthTx_convert_error tf pk a args m ec hp hs hv hc
          cases hb : tf.getBaseFee with
          | error eb =>
              rw [h1, coreMsg_baseFee_error tf pk a args m eb hp hs hb]
              simp [signedTxStage, coreMsgStage, hp, hs, hv, hc, hb]
          | ok resp =>
            cases ha : tf.asMessage m (latestSignerForChainID tf.eip155ChainID)
                resp.baseFee with
            | error ea =>
                rw [h1, coreMsg_asMessage_error tf pk a args m resp ea hp hs hb ha]
                simp [signedTxStage, coreMsgStage, hp, hs, hv, hc, hb, ha]
            | ok cm =>
                rw [h1, coreMsg_success tf pk a args m resp cm hp hs hb ha]
                simp [signedTxStage, coreMsgStage, hp, hs, hv, hc, hb, ha]
        | ok tx =>
          have h1 := signedEthTx_success tf pk a args m tx hp hs hv hc
          cases hb : tf.getBaseFee with
          | error eb =>
              rw [h1, coreMsg_baseFee_error tf pk a args m eb hp hs hb]
              simp [signedTxStage, coreMsgStage, hp, hs, hv, hc, hb]
          | ok resp =>
            cases ha : tf.asMessage m (latestSignerForChainID tf.eip155ChainID)
                resp.baseFee with
            | error ea =>
                rw [h1, coreMsg_asMessage_error tf pk a args m resp ea hp hs hb ha]
                simp [signedTxStage, coreMsgStage, hp, hs, hv, hc, hb, ha]
            | ok cm =>
                rw [h1, coreMsg_success tf pk a args m resp cm hp hs hb ha]
                simp [signedTxStage, coreMsgStage, hp, hs, hv, hc, hb, ha]

/-- Witness for the amended C4 theorem: every stage-failure branch and both
success branches instantiated on concrete factories. -/
theorem pipeline_stage_order_witness :
    (GenerateSignedEthTx okFactory 0 {}).2.2.filterMap signedTxStage =
      [0, 1, 2, 3] ∧
    (GenerateGethCoreMsg okFactory 0 {}).2.2.filterMap coreMsgStage =
      [0, 1, 2, 3] ∧
    (GenerateSignedEthTx populateFailFactory 0 {}).2.1 =
      some (Err.wrap "failed to generate signed MsgEthereumTx"
        (Err.wrap "failed to create ethereum tx"
          (Err.wrap "failed to populate tx args" (Err.base "nonce query failed")))) ∧
    (GenerateGethCoreMsg populateFailFactory 0 {}).2.2.filterMap coreMsgStage =
      [0] ∧
    (GenerateSignedEthTx signFailFactory 0 {}).2.1 =
      some (Err.wrap "failed to generate signed MsgEthereumTx"
        (Err.base "signing failed")) ∧
    (GenerateGethCoreMsg signFailFactory 0 {}).2.1 =
      some (Err.wrap "failed to sign ethereum tx" (Err.base "signing failed")) ∧
    (GenerateSignedEthTx validateFailFactory 0 {}).2.1 =
      some (Err.wrap "failed to validate transaction" (Err.base "invalid msg")) ∧
    ((GenerateSignedEthTx convertFailFactory 0 {}).2.1 =
        some (Err.base "encode failed") ∧
      (GenerateSignedEthTx convertFailFactory 0 {}).1 = none) ∧
    (GenerateGethCoreMsg baseFeeFailFactory 0 {}).2.1 =
      some (Err.wrap "failed to get base fee" (Err.base "base fee query failed")) ∧
    ((GenerateGethCoreMsg asMessageFailFactory 0 {}).2.1 =
        some (Err.base "as message failed") ∧
      (GenerateGethCoreMsg asMessageFailFactory 0 {}).1 = none) := by
  have h5 := (pipeline_stage_order populateFailFactory 0 {}).2.2.2.2.1
    (Err.base "nonce query failed") (by rfl)
  have h6 := (pipeline_stage_order signFailFactory 0 {}).2.2.2.2.2.1
    {} (by rfl) (Err.base "signing failed") (by rfl)
  have h7 := (pipeline_stage_order validateFailFactory 0 {}).2.2.2.2.2.2.1
    {} (by rfl) { txArgs := {}, fromAddr := 0, signature := some 1 } (by rfl)
    (Err.base "invalid msg") (by rfl)
  have h8 := (pipeline_stage_order convertFailFactory 0 {}).2.2.2.2.2.2.2.1
    {} (by rfl) { txArgs := {}, fromAddr := 0, signature := some 1 } (by rfl)
    (by rfl) (Err.base "encode failed") (by rfl)
  have h9 := (pipeline_stage_order baseFeeFailFactory 0 {}).2.2.2.2.2.2.2.2.1
    {} (by rfl) { txArgs := {}, fromAddr := 0, signature := some 1 } (by rfl)
    (Err.base "base fee query failed") (by rfl)
  have h10 := (pipeline_stage_order asMessageFailFactory 0 {}).2.2.2.2.2.2.2.2.2
    {} (by rfl) { txArgs := {}, fromAddr := 0, signature := some 1 } (by rfl)
    ⟨5⟩ (by rfl) (Err.base "as message failed") (by rfl)
  exact ⟨(pipeline_stage_order okFactory 0 {}).2.2.1 (by rfl),
    (pipeline_stage_order okFactory 0 {}).2.2.2.1 (by rfl),
    h5.2.1, h5.2.2.1, h6.2.1, h6.2.2.2, h7.2,
    ⟨h8.2.1, h8.2.2⟩, h9.2, ⟨h10.2.1, h10.2.2⟩⟩

/-- C5: `GenerateSignedEthTx` validates the signed message after signing
succeeds: if `ValidateBasic` rejects it, the returned transaction is nil
and the error is the wrapped `failed to validate transaction` failure with
no conversion performed; and a run that returns without error has passed
validation of its signed message, with the validation call in its trace. -/
theorem generateSignedEthTx_validates (tf : IntegrationTxFactory) (pk : PrivKey)
    (a : EvmTxArgs) :
    (∀ e, (GenerateSignedMsgEthereumTx tf pk a).2.1 = none →
      tf.validateBasic (GenerateSignedMsgEthereumTx tf pk a).1 = some e →
      (GenerateSignedEthTx tf pk a).1 = none ∧
      (GenerateSignedEthTx tf pk a).2.1 =
        some (Err.wrap "failed to validate transaction" e) ∧
      (GenerateSignedEthTx tf pk a).2.2.countP isConvertCall = 0) ∧
    ((GenerateSignedEthTx tf pk a).2.1 = none →
      tf.validateBasic (GenerateSignedMsgEthereumTx tf pk a).1 = none ∧
      Event.validateCall (GenerateSignedMsgEthereumTx tf pk a).1 ∈
        (GenerateSignedEthTx tf pk a).2.2) := by
  cases hp : tf.populateEvmTxArgs (tf.pubKeyAddr pk) a with
  | error e =>
      rw [genSignedMsg_populate_error tf pk a e hp,
        signedEthTx_populate_error tf pk a e hp]
      simp
  | ok args =>
    cases hs : tf.signMsgEthereumTx pk (buildMsgEthereumTx args (tf.pubKeyAddr pk)) with
    | error e =>
        rw [genSignedMsg_sign_error tf pk a args e hp hs,
          signedEthTx_sign_error tf pk a args e hp hs]
        simp
    | ok m =>
      rw [genSignedMsg_sign_ok tf pk a args m hp hs]
      cases hv : tf.validateBasic m with
      | some e =>
          rw [signedEthTx_validate_error tf pk a args m e hp hs hv]
          simp [hv, isConvertCall]
      | none =>
        cases hc : tf.buildSignedTx m with
        | error ec =>
            rw [signedEthTx_convert_error tf pk a args m ec hp hs hv hc]
            simp [hv]
        | ok tx =>
            rw [signedEthTx_success tf pk a args m tx hp hs hv hc]
            simp [hv]

/-- Witness for C5: a factory whose validation rejects the signed message
aborts with the wrapped validation error and no conversion, and a factory
whose collaborators succeed returns a transaction that passed
validation. -/
theorem generateSignedEthTx_validates_witness :
    ((GenerateSignedEthTx validateFailFactory 0 {}).1 = none ∧
      (GenerateSignedEthTx validateFailFactory 0 {}).2.1 =
        some (Err.wrap "failed to validate transaction" (Err.base "invalid msg")) ∧
      (GenerateSignedEthTx validateFailFactory 0 {}).2.2.countP isConvertCall = 0) ∧
    (validateFailFactory.validateBasic
        (GenerateSignedMsgEthereumTx validateFailFactory 0 {}).1 =
      some (Err.base "invalid msg")) ∧
    (okFactory.validateBasic (GenerateSignedMsgEthereumTx okFactory 0 {}).1 = none ∧
      Event.validateCall (GenerateSignedMsgEthereumTx okFactory 0 {}).1 ∈
        (GenerateSignedEthTx okFactory 0 {}).2.2) := by
  exact ⟨(generateSignedEthTx_validates validateFailFactory 0 {}).1
      (Err.base "invalid msg") (by rfl) (by rfl),
    by rfl,
    (generateSignedEthTx_validates okFactory 0 {}).2 (by rfl)⟩

lemma estimateGasLimit_marshal_error (tf : IntegrationTxFactory)
    (fromAddr : Option Address) (txArgs : EvmTxArgs) (e : Err)
    (h : tf.jsonMarshal
        { data := some txArgs.input, fromAddr := fromAddr,
          toAddr := txArgs.toAddr, accessList := txArgs.accesses } = .error e) :
    EstimateGasLimit tf fromAddr txArgs =
      (0, some (Err.wrap "failed to marshal tx args" e),
        [Event.marshalCall
          { data := some txArgs.input, fromAddr := fromAddr,
            toAddr := txArgs.toAddr, accessList := txArgs.accesses }]) := by
  simp [EstimateGasLimit, h]

lemma estimateGasLimit_estimate_error (tf : IntegrationTxFactory)
    (fromAddr : Option Address) (txArgs : EvmTxArgs) (s : SerializedArgs) (e : Err)
    (hm : tf.jsonMarshal
        { data := some txArgs.input, fromAddr := fromAddr,
          toAddr := txArgs.toAddr, accessList := txArgs.accesses } = .ok s)
    (he : tf.estimateGas s DefaultGasCap = .error e) :
    EstimateGasLimit tf fromAddr txArgs =
      (0, some (Err.wrap "failed to estimate gas" e),
        [Event.marshalCall
          { data := some txArgs.input, fromAddr := fromAddr,
            toAddr := txArgs.toAddr, accessList := txArgs.accesses },
          Event.estimateGasCall s DefaultGasCap]) := by
  simp [EstimateGasLimit, hm, he]

lemma estimateGasLimit_success (tf : IntegrationTxFactory)
    (fromAddr : Option Address) (txArgs : EvmTxArgs) (s : SerializedArgs)
    (res : EstimateGasResponse)
    (hm : tf.jsonMarshal
        { data := some txArgs.input, fromAddr := fromAddr,
          toAddr := txArgs.toAddr, accessList := txArgs.accesses } = .ok s)
    (he : tf.estimateGas s DefaultGasCap = .ok res) :
    EstimateGasLimit tf fromAddr txArgs =
      (res.gas, none,
        [Event.marshalCall
          { data := some txArgs.input, fromAddr := fromAddr,
            toAddr := txArgs.toAddr, accessList := txArgs.accesses },
          Event.estimateGasCall s DefaultGasCap]) := by
  simp [EstimateGasLimit, hm, he]

/-- C6: if the chain query handler's estimation fails, `EstimateGasLimit`
returns gas exactly `0` with the wrapped `failed to estimate gas` error;
if local serialization fails it returns gas exactly `0` with the
distinctly-labelled wrapped `failed to marshal tx args` error and a trace
containing no estimation call — the two failure labels are distinct. -/
theorem estimateGasLimit_error_modes (tf : IntegrationTxFactory)
    (fromAddr : Option Address) (txArgs : EvmTxArgs) :
    (∀ e, tf.jsonMarshal
        { data := some txArgs.input, fromAddr := fromAddr,
          toAddr := txArgs.toAddr, accessList := txArgs.accesses } = .error e →
      EstimateGasLimit tf fromAddr txArgs =
        (0, some (Err.wrap "failed to marshal tx args" e),
          [Event.marshalCall
            { data := some txArgs.input, fromAddr := fromAddr,
              toAddr := txArgs.toAddr, accessList := txArgs.accesses }])) ∧
    (∀ s, tf.jsonMarshal
        { data := some txArgs.input, fromAddr := fromAddr,
          toAddr := txArgs.toAddr, accessList := txArgs.accesses } = .ok s →
      ∀ e, tf.estimateGas s DefaultGasCap = .error e →
      EstimateGasLimit tf fromAddr txArgs =
        (0, some (Err.wrap "failed to estimate gas" e),
          [Event.marshalCall
            { data := some txArgs.input, fromAddr := fromAddr,
              toAddr := txArgs.toAddr, accessList := txArgs.accesses },
            Event.estimateGasCall s DefaultGasCap])) ∧
    ("failed to marshal tx args" ≠ "failed to estimate gas") := by
  refine ⟨?_, ?_, by decide⟩
  · intro e h
    exact estimateGasLimit_marshal_error tf fromAddr txArgs e h
  · intro s hm e he
    exact estimateGasLimit_estimate_error tf fromAddr txArgs s e hm he

/-- Witness for C6: the two failure modes evaluated on concrete
factories. -/
theorem estimateGasLimit_error_modes_witness :
    EstimateGasLimit marshalFailFactory none {} =
      (0, some (Err.wrap "failed to marshal tx args" (Err.base "marshal failed")),
        [Event.marshalCall { data := some [] }]) ∧
    EstimateGasLimit estimateFailFactory none {} =
      (0, some (Err.wrap "failed to estimate gas" (Err.base "execution reverted")),
        [Event.marshalCall { data := some [] },
          Event.estimateGasCall [7] DefaultGasCap]) := by
  exact ⟨(estimateGasLimit_error_modes marshalFailFactory none {}).1
      (Err.base "marshal failed") (by rfl),
    (estimateGasLimit_error_modes estimateFailFactory none {}).2.1
      [7] (by rfl) (Err.base "execution reverted") (by rfl)⟩

/-- The `TransactionArgs` records handed to the JSON encoder, read off a
ghost call trace in order. -/
def marshalArgsOf (tr : List Event) : List TransactionArgs :=
  tr.filterMap fun e =>
    match e with
    | .marshalCall a => some a
    | _ => none

/-- C7: `EstimateGasLimit` serializes exactly the subset
{input payload, sender, recipient, access list} of the transaction
arguments (every other query field is unset), invokes the chain query
handler's estimation exactly once with the fixed configured gas cap
whenever serialization succeeds, and on success returns exactly the gas
value of the handler's response. -/
theorem estimateGasLimit_query_contract (tf : IntegrationTxFactory)
    (fromAddr : Option Address) (txArgs : EvmTxArgs) :
    marshalArgsOf (EstimateGasLimit tf fromAddr txArgs).2.2 =
      [{ data := some txArgs.input, fromAddr := fromAddr,
         toAddr := txArgs.toAddr, accessList := txArgs.accesses }] ∧
    (∀ s, tf.jsonMarshal
        { data := some txArgs.input, fromAddr := fromAddr,
          toAddr := txArgs.toAddr, accessList := txArgs.accesses } = .ok s →
      estimateCallsOf (EstimateGasLimit tf fromAddr txArgs).2.2 =
        [(s, DefaultGasCap)]) ∧
    (∀ s, tf.jsonMarshal
        { data := some txArgs.input, fromAddr := fromAddr,
          toAddr := txArgs.toAddr, accessList := txArgs.accesses } = .ok s →
      ∀ res, tf.estimateGas s DefaultGasCap = .ok res →
      (EstimateGasLimit tf fromAddr txArgs).1 = res.gas ∧
      (EstimateGasLimit tf fromAddr txArgs).2.1 = none) := by
  cases hm : tf.jsonMarshal
      { data := some txArgs.input, fromAddr := fromAddr,
        toAddr := txArgs.toAddr, accessList := txArgs.accesses } with
  | error e =>
      rw [estimateGasLimit_marshal_error tf fromAddr txArgs e hm]
      simp [marshalArgsOf, hm]
  | ok s =>
    cases he : tf.estimateGas s DefaultGasCap with
    | error e =>
        rw [estimateGasLimit_estimate_error tf fromAddr txArgs s e hm he]
        simp [marshalArgsOf, estimateCallsOf, hm, he]
    | ok res =>
        rw [estimateGasLimit_success tf fromAddr txArgs s res hm he]
        simp [marshalArgsOf, estimateCallsOf, hm, he]

/-- Witness for C7: the estimation query contract evaluated on a concrete
succeeding factory. -/
theorem estimateGasLimit_query_contract_witness :
    estimateCallsOf (EstimateGasLimit okFactory none {}).2.2 =
      [([7], DefaultGasCap)] ∧
    (EstimateGasLimit okFactory none {}).1 = 21000 ∧
    (EstimateGasLimit okFactory none {}).2.1 = none := by
  refine ⟨(estimateGasLimit_query_contract okFactory none {}).2.1 [7] (by rfl), ?_⟩
  exact (estimateGasLimit_query_contract okFactory none {}).2.2 [7] (by rfl)
    ⟨21000⟩ (by rfl)

/-- C8: after building and signing succeed, `GenerateGethCoreMsg` queries
the base fee from the chain query handler; if that query fails it returns
a nil message with the wrapped `failed to get base fee` error and performs
no conversion, and if it succeeds it converts the signed message via
`AsMessage` using the signer context derived from the network's EIP-155
chain ID and exactly the queried base fee. -/
theorem generateGethCoreMsg_baseFee (tf : IntegrationTxFactory) (pk : PrivKey)
    (a : EvmTxArgs) :
    (∀ args, tf.populateEvmTxArgs (tf.pubKeyAddr pk) a = .ok args →
      ∀ m, tf.signMsgEthereumTx pk (buildMsgEthereumTx args (tf.pubKeyAddr pk)) =
          .ok m →
      ∀ e, tf.getBaseFee = .error e →
      GenerateGethCoreMsg tf pk a =
        (none, some (Err.wrap "failed to get base fee" e),
          [Event.populateCall (tf.pubKeyAddr pk) a,
            Event.signCall (buildMsgEthereumTx args (tf.pubKeyAddr pk)),
            Event.getBaseFeeCall])) ∧
    (∀ args, tf.populateEvmTxArgs (tf.pubKeyAddr pk) a = .ok args →
      ∀ m, tf.signMsgEthereumTx pk (buildMsgEthereumTx args (tf.pubKeyAddr pk)) =
          .ok m →
      ∀ resp, tf.getBaseFee = .ok resp →
      ∀ cm, tf.asMessage m (latestSignerForChainID tf.eip155ChainID)
          resp.baseFee = .ok cm →
      GenerateGethCoreMsg tf pk a =
        (some cm, none,
          [Event.populateCall (tf.pubKeyAddr pk) a,
            Event.signCall (buildMsgEthereumTx args (tf.pubKeyAddr pk)),
            Event.getBaseFeeCall,
            Event.asMessageCall m (latestSignerForChainID tf.eip155ChainID)
              resp.baseFee])) := by
  constructor
  · intro args hp m hs e hb
    exact coreMsg_baseFee_error tf pk a args m e hp hs hb
  · intro args hp m hs resp hb cm ha
    exact coreMsg_success tf pk a args m resp cm hp hs hb ha

/-- Witness for C8: the base-fee failure and the successful conversion
evaluated on concrete factories. -/
theorem generateGethCoreMsg_baseFee_witness :
    GenerateGethCoreMsg baseFeeFailFactory 0 {} =
      (none, some (Err.wrap "failed to get base fee"
          (Err.base "base fee query failed")),
        [Event.populateCall 0 {}, Event.signCall (buildMsgEthereumTx {} 0),
          Event.getBaseFeeCall]) ∧
    GenerateGethCoreMsg okFactory 0 {} =
      (some ⟨0, none, 0, 0, 5⟩, none,
        [Event.populateCall 0 {}, Event.signCall (buildMsgEthereumTx {} 0),
          Event.getBaseFeeCall,
          Event.asMessageCall { txArgs := {}, fromAddr := 0, signature := some 1 }
            (latestSignerForChainID 9001) 5]) := by
  exact ⟨(generateGethCoreMsg_baseFee baseFeeFailFactory 0 {}).1
      {} (by rfl) { txArgs := {}, fromAddr := 0, signature := some 1 } (by rfl)
      (Err.base "base fee query failed") (by rfl),
    (generateGethCoreMsg_baseFee okFactory 0 {}).2
      {} (by rfl) { txArgs := {}, fromAddr := 0, signature := some 1 } (by rfl)
      ⟨5⟩ (by rfl) ⟨0, none, 0, 0, 5⟩ (by rfl)⟩

/-- C9: results and errors are mutually exclusive: an erroring
`GenerateSignedEthTx` or `GenerateGethCoreMsg` returns a nil
transaction/message, and an erroring `GenerateMsgEthereumTx` returns the
zero-value record — no partial result accompanies an error. -/
theorem factory_error_result_exclusive (tf : IntegrationTxFactory) (pk : PrivKey)
    (a : EvmTxArgs) :
    ((GenerateSignedEthTx tf pk a).2.1 = none ∨
      (GenerateSignedEthTx tf pk a).1 = none) ∧
    ((GenerateGethCoreMsg tf pk a).2.1 = none ∨
      (GenerateGethCoreMsg tf pk a).1 = none) ∧
    ((GenerateMsgEthereumTx tf pk a).2.1 = none ∨
      (GenerateMsgEthereumTx tf pk a).1 = ({} : MsgEthereumTx)) := by
  cases hp : tf.populateEvmTxArgs (tf.pubKeyAddr pk) a with
  | error e =>
      rw [genMsg_populate_error tf pk a e hp,
        signedEthTx_populate_error tf pk a e hp,
        coreMsg_populate_error tf pk a e hp]
      simp
  | ok args =>
    rw [genMsg_populate_ok tf pk a args hp]
    cases hs : tf.signMsgEthereumTx pk (buildMsgEthereumTx args (tf.pubKeyAddr pk)) with
    | error e =>
        rw [signedEthTx_sign_error tf pk a args e hp hs,
          coreMsg_sign_error tf pk a args e hp hs]
        simp
    | ok m =>
      have hcore :
          (GenerateGethCoreMsg tf pk a).2.1 = none ∨
            (GenerateGethCoreMsg tf pk a).1 = none := by
        cases hb : tf.getBaseFee with
        | error eb =>
            rw [coreMsg_baseFee_error tf pk a args m eb hp hs hb]
            simp
        | ok resp =>
          cases ha : tf.asMessage m (latestSignerForChainID tf.eip155ChainID)
              resp.baseFee with
          | error ea =>
              rw [coreMsg_asMessage_error tf pk a args m resp ea hp hs hb ha]
              simp
          | ok cm =>
              rw [coreMsg_success tf pk a args m resp cm hp hs hb ha]
              simp
      refine ⟨?_, hcore, by simp⟩
      cases hv : tf.validateBasic m with
      | some e =>
          rw [signedEthTx_validate_error tf pk a args m e hp hs hv]
          simp
      | none =>
        cases hc : tf.buildSignedTx m with
        | error ec =>
            rw [signedEthTx_convert_error tf pk a args m ec hp hs hv hc]
            simp
        | ok tx =>
            rw [signedEthTx_success tf pk a args m tx hp hs hv hc]
            simp
